import Mathlib

/-!
Verification of the tumblerous HTTP dispatch layer and its leveled logger.

The Go source is shallowly embedded: machine integers become `Int`/`Nat`,
the `http.ResponseWriter` becomes explicit fields recording the status
lines and body chunks written to the wire, the logger sink becomes a list
of written entries, and ambient runtime inputs (the wall clock rendering
used for the `Date` header, and the call stack observed by the panic
recovery loop) become explicit parameters.  Handlers are embedded as
sequences of calls to the exported `Request` API plus an explicit panic.
-/

namespace Tumblerous

/-- Priority level of a log message (`type Level int`).  The Go type is a
machine integer, so values outside `TRACE..CRITICAL` are representable. -/
abbrev Level := Int

def TRACE : Level := 0
def DEBUG : Level := 1
def INFO : Level := 2
def WARN : Level := 3
def ERROR : Level := 4
def CRITICAL : Level := 5

/-- `var levelStrings = [...]string {"T", "D", "I", "W", "E", "C"}` -/
def levelStrings : List String := ["T", "D", "I", "W", "E", "C"]

/-- `func (l Level) String() string`.  The source guards with
`l < 0 || int(l) > len(levelStrings)` and otherwise indexes
`levelStrings[int(l)]`.  A Go index out of range panics; that fault is
modelled as `none`, while a normal return is `some`. -/
def levelString (l : Level) : Option String :=
  if l < 0 ∨ l > (levelStrings.length : Int) then some "UNKNOWN"
  else levelStrings.get? l.toNat

/-- One entry written to the logger's sink: its level and message text.
(The full wire line also carries a timestamp, pid and file:line prefix,
none of which the claims inspect.) -/
structure LogEntry where
  lvl : Level
  msg : String
deriving DecidableEq

/-- Logger state relevant to the embedded code paths: the minimum level and
the configured caller stack depth (`type Logger struct`; the mutex, sink
handle and scratch buffer are represented by the entry trace). -/
structure Logger where
  level : Level
  callDepth : Nat
deriving DecidableEq

/-- Result of one `logf`/`logc` call: the returned message, the entries
written to the sink, and effect flags recording whether the call resolved
the caller location (`runtime.Caller`), ran `fmt.Sprintf` formatting, or
evaluated a deferred message closure. -/
structure LogCall where
  ret : String
  writes : List LogEntry
  callerResolved : Bool
  formatted : Bool
  closureEvaluated : Bool
deriving DecidableEq

/-- Splice positional arguments into a `fmt`-style template: each
two-character verb `%x` consumes the next (pre-stringified) argument.
This renders the `%s`/`%d`/`%q` uses at the embedded call sites. -/
def spliceFmt : List Char → List String → List Char
  | [], _ => []
  | '%' :: _ :: rest, a :: as => a.data ++ spliceFmt rest as
  | c :: rest, as => c :: spliceFmt rest as

def sprintf (format : String) (args : List String) : String :=
  ⟨spliceFmt format.data args⟩

/-- `func (log *Logger) logf(lvl Level, format string, args ...interface{}) string`.
Below the minimum level it returns `""` before any caller resolution,
formatting or sink write.  Otherwise it resolves the caller, formats the
message (`fmt.Sprintf` only when arguments were passed) and writes one
entry to the sink. -/
def Logger.logf (log : Logger) (lvl : Level) (format : String)
    (args : List String) : LogCall :=
  if lvl < log.level then
    { ret := "", writes := [], callerResolved := false, formatted := false,
      closureEvaluated := false }
  else
    let msg := if args.length > 0 then sprintf format args else format
    { ret := msg, writes := [{ lvl := lvl, msg := msg }], callerResolved := true,
      formatted := args.length > 0, closureEvaluated := false }

/-- `func (log *Logger) logc(lvl Level, closure func() string) string`.
Below the minimum level it returns `""` without evaluating the closure;
otherwise it resolves the caller, evaluates the closure once and writes
one entry. -/
def Logger.logc (log : Logger) (lvl : Level) (closure : Unit → String) : LogCall :=
  if lvl < log.level then
    { ret := "", writes := [], callerResolved := false, formatted := false,
      closureEvaluated := false }
  else
    let msg := closure ()
    { ret := msg, writes := [{ lvl := lvl, msg := msg }], callerResolved := true,
      formatted := false, closureEvaluated := true }

/-- `func (log *Logger) Critical(arg0 ...)` with a string first argument:
logs at CRITICAL via `logf` and then panics with the message `logf`
returned.  The second component is the panic value. -/
def Logger.criticalStr (log : Logger) (format : String)
    (args : List String) : LogCall × String :=
  let c := log.logf CRITICAL format args
  (c, c.ret)

/-- Response header map (`http.Header`): an ordered association of header
name to its list of values. -/
abbrev Headers := List (String × List String)

/-- `Header().Set`: replace every value of the named header with one value. -/
def hSet : Headers → String → String → Headers
  | [], name, val => [(name, [val])]
  | (n, vs) :: rest, name, val =>
    if n = name then (n, [val]) :: rest else (n, vs) :: hSet rest name val

/-- `Header().Add`: append one more value under the named header. -/
def hAdd : Headers → String → String → Headers
  | [], name, val => [(name, [val])]
  | (n, vs) :: rest, name, val =>
    if n = name then (n, vs ++ [val]) :: rest else (n, vs) :: hAdd rest name val

/-- Look up the values of a header, `none` when the header is absent. -/
def hGet : Headers → String → Option (List String)
  | [], _ => none
  | (n, vs) :: rest, name => if n = name then some vs else hGet rest name

theorem hGet_hSet_same (h : Headers) (n v : String) :
    hGet (hSet h n v) n = some [v] := by
  induction h with
  | nil => simp [hSet, hGet]
  | cons p rest ih =>
    obtain ⟨pn, pvs⟩ := p
    by_cases hp : pn = n <;> simp [hSet, hGet, hp, ih]

theorem hGet_hSet_other (h : Headers) (n m v : String) (hnm : n ≠ m) :
    hGet (hSet h n v) m = hGet h m := by
  induction h with
  | nil => simp [hSet, hGet, hnm]
  | cons p rest ih =>
    obtain ⟨pn, pvs⟩ := p
    by_cases hp : pn = n
    · subst hp; simp [hSet, hGet, hnm]
    · simp [hSet, hGet, hp, ih]

/-- The state of one `Request` record together with the wire effects on its
underlying exchange: `wroteStatus` records each `WriteHeader` call and
`wroteBody` each `Write` call on the `http.ResponseWriter`.  `dateStr` is
the RFC1123 rendering of the creation time `time.Now()`, an ambient input. -/
structure Request where
  status : Int
  contentLength : Nat
  contentType : String
  dateStr : String
  replied : Bool
  headers : Headers
  wroteStatus : List Int
  wroteBody : List String
deriving DecidableEq

/-- `func newRequest(...)`: fresh per-exchange state. -/
def newRequest (dateStr : String) : Request :=
  { status := 200, contentLength := 0, contentType := "text/html; charset=utf-8",
    dateStr := dateStr, replied := false, headers := [],
    wroteStatus := [], wroteBody := [] }

/-- `func (req *Request) httpDate(t time.Time) string`, applied to the
stored RFC1123 rendering: replace a trailing `"UTC"` with `"GMT"`. -/
def httpDate (f : String) : String :=
  if f.endsWith "UTC" then f.dropRight 3 ++ "GMT" else f

/-- Result of an operation on one exchange: the updated request state, the
log entries written during it, and the panic value if it panicked. -/
structure Outcome where
  req : Request
  logs : List LogEntry
  panicked : Option String
deriving DecidableEq

/-- `func (req *Request) Reply(status int, body string)`.  A second reply
hits `Logger.Critical`, which writes a CRITICAL entry and panics before
any header or wire write.  A first reply sets the status and byte length,
the `Date` header, `Content-Type`/`Content-Length` only for a non-empty
body, `Connection: close` only for status ≥ 400, marks the context
replied, writes the status line and, when non-empty, the body bytes. -/
def Reply (log : Logger) (req : Request) (status : Int) (body : String) : Outcome :=
  if req.replied then
    let c := log.criticalStr "this context has already been replied to!" []
    { req := req, logs := c.1.writes, panicked := some c.2 }
  else
    let cl := body.utf8ByteSize
    let h1 := hSet req.headers "Date" (httpDate req.dateStr)
    let h2 :=
      if cl > 0 then
        hSet (hSet h1 "Content-Type" req.contentType) "Content-Length" (toString cl)
      else h1
    let h3 := if status ≥ 400 then hSet h2 "Connection" "close" else h2
    { req :=
        { req with
            status := status,
            contentLength := cl,
            headers := h3,
            replied := true,
            wroteStatus := req.wroteStatus ++ [status],
            wroteBody := req.wroteBody ++ (if cl > 0 then [body] else []) },
      logs := [], panicked := none }

/-- Claim C10: the source intends `Level.String` to return `"UNKNOWN"` for
every out-of-range level, but its guard reads `int(l) > len(levelStrings)`
instead of `>=`: the value `6` slips through the guard and the method
indexes the six-entry table out of bounds (a Go runtime panic, modelled as
`none`), while `-1` and `7` are caught and in-range values return their
letter. -/
theorem levelString_out_of_range :
    levelString 6 = none ∧ levelString (-1) = some "UNKNOWN" ∧
    levelString 7 = some "UNKNOWN" ∧ levelString 5 = some "C" ∧
    levelString 0 = some "T" := by decide

/-- Claim C7: a log call at a severity strictly below the logger's minimum
level writes nothing to the sink, resolves no caller location, performs no
message formatting and does not evaluate a deferred message closure. -/
theorem below_level_no_effects (log : Logger) (lvl : Level) (format : String)
    (args : List String) (closure : Unit → String) (h : lvl < log.level) :
    log.logf lvl format args =
      { ret := "", writes := [], callerResolved := false, formatted := false,
        closureEvaluated := false } ∧
    log.logc lvl closure =
      { ret := "", writes := [], callerResolved := false, formatted := false,
        closureEvaluated := false } := by
  constructor <;> simp [Logger.logf, Logger.logc, h]

/-- Witness for C7 at a concrete logger (minimum level INFO) and a DEBUG
call with a format argument and a closure. -/
theorem below_level_no_effects_witness :
    Logger.logf { level := INFO, callDepth := 2 } DEBUG "fmt %s" ["a"] =
      { ret := "", writes := [], callerResolved := false, formatted := false,
        closureEvaluated := false } ∧
    Logger.logc { level := INFO, callDepth := 2 } DEBUG (fun _ => "m") =
      { ret := "", writes := [], callerResolved := false, formatted := false,
        closureEvaluated := false } :=
  below_level_no_effects { level := INFO, callDepth := 2 } DEBUG "fmt %s" ["a"]
    (fun _ => "m") (by decide)

/-- Claim C2: a second `Reply` on a context already replied to triggers the
critical invariant-violation path: exactly one CRITICAL log entry followed
by a panic terminating the operation, with the request state returned
untouched — in particular no second status line and no body bytes are
written to the underlying exchange. -/
theorem reply_twice_critical (log : Logger) (req : Request) (s : Int) (b : String)
    (hrep : req.replied = true) (hlvl : log.level ≤ CRITICAL) :
    Reply log req s b =
      { req := req,
        logs := [{ lvl := CRITICAL,
                   msg := "this context has already been replied to!" }],
        panicked := some "this context has already been replied to!" } := by
  have h : ¬(CRITICAL < log.level) := not_lt.mpr hlvl
  simp [Reply, hrep, Logger.criticalStr, Logger.logf, h]

/-- Witness for C2: replying twice to one concrete request. -/
theorem reply_twice_critical_witness :
    Reply { level := TRACE, callDepth := 2 }
        (Reply { level := TRACE, callDepth := 2 } (newRequest "D") 200 "x").req
        200 "y" =
      { req := (Reply { level := TRACE, callDepth := 2 } (newRequest "D") 200 "x").req,
        logs := [{ lvl := CRITICAL,
                   msg := "this context has already been replied to!" }],
        panicked := some "this context has already been replied to!" } :=
  reply_twice_critical { level := TRACE, callDepth := 2 } _ 200 "y"
    (by decide) (by decide)

/-- Claim C5: on a first `Reply`, an empty body leaves `Content-Type` and
`Content-Length` unset and writes no body bytes; a non-empty body sets
both, `Content-Length` being the exact byte length and `Content-Type` the
context's content-type field, which `newRequest` initialises to the
default `"text/html; charset=utf-8"` unless overridden before the call. -/
theorem reply_content_headers (log : Logger) (req : Request) (s : Int) (b : String)
    (hrep : req.replied = false)
    (hct : hGet req.headers "Content-Type" = none)
    (hcl : hGet req.headers "Content-Length" = none) :
    (Reply log req s b).panicked = none ∧
    (b.utf8ByteSize = 0 →
      hGet (Reply log req s b).req.headers "Content-Type" = none ∧
      hGet (Reply log req s b).req.headers "Content-Length" = none ∧
      (Reply log req s b).req.wroteBody = req.wroteBody) ∧
    (0 < b.utf8ByteSize →
      hGet (Reply log req s b).req.headers "Content-Type" = some [req.contentType] ∧
      hGet (Reply log req s b).req.headers "Content-Length" =
        some [toString b.utf8ByteSize]) ∧
    (newRequest req.dateStr).contentType = "text/html; charset=utf-8" := by
  have e1 : ("Date" : String) ≠ "Content-Type" := by decide
  have e2 : ("Date" : String) ≠ "Content-Length" := by decide
  have e3 : ("Connection" : String) ≠ "Content-Type" := by decide
  have e4 : ("Connection" : String) ≠ "Content-Length" := by decide
  have e5 : ("Content-Length" : String) ≠ "Content-Type" := by decide
  refine ⟨by simp [Reply, hrep], ?_, ?_, rfl⟩
  · intro h0
    have hb : ¬ b.utf8ByteSize > 0 := by omega
    simp only [Reply, hrep, Bool.false_eq_true, if_false, if_neg hb]
    split_ifs with h4 <;>
      simp [hGet_hSet_other, hGet_hSet_same, e1, e2, e3, e4, e5, hct, hcl]
  · intro h0
    have hb : b.utf8ByteSize > 0 := h0
    simp only [Reply, hrep, Bool.false_eq_true, if_false, if_pos hb]
    split_ifs with h4 <;>
      simp [hGet_hSet_other, hGet_hSet_same, e1, e2, e3, e4, e5, hct, hcl]

/-- Witness for C5 at a concrete first reply with the two-byte body "ab". -/
theorem reply_content_headers_witness :
    (Reply { level := TRACE, callDepth := 2 } (newRequest "D") 200 "ab").panicked
        = none ∧
    ("ab".utf8ByteSize = 0 →
      hGet (Reply { level := TRACE, callDepth := 2 } (newRequest "D") 200 "ab").req.headers
          "Content-Type" = none ∧
      hGet (Reply { level := TRACE, callDepth := 2 } (newRequest "D") 200 "ab").req.headers
          "Content-Length" = none ∧
      (Reply { level := TRACE, callDepth := 2 } (newRequest "D") 200 "ab").req.wroteBody
          = (newRequest "D").wroteBody) ∧
    (0 < "ab".utf8ByteSize →
      hGet (Reply { level := TRACE, callDepth := 2 } (newRequest "D") 200 "ab").req.headers
          "Content-Type" = some [(newRequest "D").contentType] ∧
      hGet (Reply { level := TRACE, callDepth := 2 } (newRequest "D") 200 "ab").req.headers
          "Content-Length" = some [toString "ab".utf8ByteSize]) ∧
    (newRequest (newRequest "D").dateStr).contentType = "text/html; charset=utf-8" :=
  reply_content_headers { level := TRACE, callDepth := 2 } (newRequest "D") 200 "ab"
    rfl rfl rfl

/-- Claim C6: a first `Reply` sets `Connection: close` exactly when the
status is at least 400; for a status below 400 it leaves the header unset. -/
theorem reply_connection_close (log : Logger) (req : Request) (s : Int) (b : String)
    (hrep : req.replied = false)
    (hconn : hGet req.headers "Connection" = none) :
    (400 ≤ s →
      hGet (Reply log req s b).req.headers "Connection" = some ["close"]) ∧
    (s < 400 →
      hGet (Reply log req s b).req.headers "Connection" = none) := by
  have e1 : ("Date" : String) ≠ "Connection" := by decide
  have e2 : ("Content-Type" : String) ≠ "Connection" := by decide
  have e3 : ("Content-Length" : String) ≠ "Connection" := by decide
  constructor
  · intro h4
    have hge : s ≥ 400 := h4
    simp only [Reply, hrep, Bool.false_eq_true, if_false, if_pos hge]
    exact hGet_hSet_same _ _ _
  · intro h4
    have hge : ¬ s ≥ 400 := by omega
    simp only [Reply, hrep, Bool.false_eq_true, if_false, if_neg hge]
    split_ifs with hb <;>
      simp [hGet_hSet_other, hGet_hSet_same, e1, e2, e3, hconn]

/-- Witness for C6 at a concrete 404 reply and a concrete 200 reply. -/
theorem reply_connection_close_witness :
    ((400 ≤ (404 : Int) →
      hGet (Reply { level := TRACE, callDepth := 2 } (newRequest "D") 404 "b").req.headers
          "Connection" = some ["close"]) ∧
     ((404 : Int) < 400 →
      hGet (Reply { level := TRACE, callDepth := 2 } (newRequest "D") 404 "b").req.headers
          "Connection" = none)) ∧
    ((400 ≤ (200 : Int) →
      hGet (Reply { level := TRACE, callDepth := 2 } (newRequest "D") 200 "b").req.headers
          "Connection" = some ["close"]) ∧
     ((200 : Int) < 400 →
      hGet (Reply { level := TRACE, callDepth := 2 } (newRequest "D") 200 "b").req.headers
          "Connection" = none)) :=
  ⟨reply_connection_close { level := TRACE, callDepth := 2 } (newRequest "D") 404 "b"
      rfl rfl,
   reply_connection_close { level := TRACE, callDepth := 2 } (newRequest "D") 200 "b"
      rfl rfl⟩

/-- One step of a handler's interaction with its `Request`: the exported
`Request` API calls plus an explicit runtime panic.  A Go handler is
embedded as the sequence of such steps it performs. -/
inductive HAction where
  | reply (status : Int) (body : String)
  | ok (body : String)
  | notFound (body : String)
  | setHeader (name val : String)
  | addHeader (name val : String)
  | doPanic (msg : String)

/-- `type RouteHandler func(*Request, []string)`, embedded as the action
sequence the handler performs for the given captured arguments. -/
abbrev Handler := List String → List HAction

/-- One handler step against the request state.  `ok` and `notFound` are
the fixed-status wrappers over `Reply` (200 and 404). -/
def runStep (log : Logger) (a : HAction) (req : Request) : Outcome :=
  match a with
  | .reply s b => Reply log req s b
  | .ok b => Reply log req 200 b
  | .notFound b => Reply log req 404 b
  | .setHeader n v =>
    { req := { req with headers := hSet req.headers n v },
      logs := [], panicked := none }
  | .addHeader n v =>
    { req := { req with headers := hAdd req.headers n v },
      logs := [], panicked := none }
  | .doPanic m => { req := req, logs := [], panicked := some m }

/-- Run a handler's actions in order against the request state, stopping at
the first panic (either an explicit one or the CRITICAL panic raised by a
double reply). -/
def runActions (log : Logger) : List HAction → Request → Outcome
  | [], req => { req := req, logs := [], panicked := none }
  | a :: rest, req =>
    let step := runStep log a req
    match step.panicked with
    | some v => { req := step.req, logs := step.logs, panicked := some v }
    | none =>
      let r := runActions log rest step.req
      { req := r.req, logs := step.logs ++ r.logs, panicked := r.panicked }

/-- `type route struct`: the registered pattern text, its compiled matcher
(`FindStringSubmatch`: `none` for no match, otherwise the whole match
followed by the capture-group substrings), the HTTP method and the
handler. -/
structure Route where
  pattern : String
  re : String → Option (List String)
  method : String
  handler : Handler

/-- The method/pattern test of the dispatch loop: the route is skipped
unless the methods are equal or the exchange's method is HEAD and the
route's is GET, and the pattern matches the path. -/
def routeMatches (m : String) (r : Route) (path : String) : Bool :=
  (m == r.method || (m == "HEAD" && r.method == "GET")) && (r.re path).isSome

/-- `match[1:]`: the captured substrings handed to the handler. -/
def argsOf (r : Route) (path : String) : List String :=
  ((r.re path).getD []).drop 1

/-- The scan of `App.ServeHTTP` over the route table in registration order:
the first route passing the method and pattern tests is selected together
with its captured arguments. -/
def findRoute : List Route → String → String → Option (Route × List String)
  | [], _, _ => none
  | r :: rest, m, path =>
    if routeMatches m r path then some (r, argsOf r path)
    else findRoute rest m path

/-- One recovered stack frame line `"! file:line\n"` of `App.protect`. -/
def frameLine (f : String × Nat) : String :=
  "! " ++ f.1 ++ ":" ++ toString f.2 ++ "\n"

/-- The frame lines appended by the `runtime.Caller` loop of `App.protect`. -/
def concatFrames : List (String × Nat) → String
  | [] => ""
  | f :: rest => frameLine f ++ concatFrames rest

/-- The buffer `App.protect` builds on a panic: the fault description
followed by the recovered stack frames. -/
def crashBuf (v : String) (stack : List (String × Nat)) : String :=
  "handler crashed: " ++ v ++ "\n" ++ concatFrames stack

/-- Result of `App.protect`: the request state, the log entries written,
and the recovered panic value `e` (`none` when the handler completed). -/
structure ProtectResult where
  req : Request
  logs : List LogEntry
  err : Option String

/-- `func (app *App) protect(...) (e interface{})`: run the handler; if it
panics, recover, build the crash buffer from the fault and the runtime
stack frames, log it at ERROR, and return the fault as `e` without
re-raising. -/
def protect (log : Logger) (stack : List (String × Nat)) (h : Handler)
    (req : Request) (args : List String) : ProtectResult :=
  let r := runActions log (h args) req
  match r.panicked with
  | none => { req := r.req, logs := r.logs, err := none }
  | some v =>
    let c := log.logf ERROR (crashBuf v stack) []
    { req := r.req, logs := r.logs ++ c.writes, err := some v }

/-- `type App struct`: the fields the dispatch claims touch. -/
structure App where
  log : Logger
  logHits : Bool
  routes : List Route

/-- `func (app *App) registerRoute(...)`: append to the ordered table (the
regex compilation is the provided matcher; a compile failure would be a
startup-fatal CRITICAL, not reached with a valid matcher). -/
def registerRoute (app : App) (pattern : String)
    (re : String → Option (List String)) (method : String) (h : Handler) : App :=
  { app with routes := app.routes ++ [⟨pattern, re, method, h⟩] }

/-- `func (req *Request) logHit()`: one INFO entry summarising the exchange
(remote address, method, path, protocol, final status, byte count). -/
def logHit (log : Logger) (req : Request)
    (remoteAddr method path proto : String) : LogCall :=
  let bytesSent := if req.contentLength > 0 then toString req.contentLength else "-"
  log.logf INFO "hit: %s %s %s %s %d %s\n"
    [remoteAddr, method, path, proto, toString req.status, bytesSent]

/-- `func (app *App) ServeHTTP(w, r)`: create the per-exchange request
state, scan the route table; on a match run the handler inside `protect`
and reply 500 on a recovered fault, then return — the hit-logging step is
only reached on the no-match path, after the 404 fallback reply. -/
def ServeHTTP (app : App) (stack : List (String × Nat))
    (method path proto remoteAddr dateStr : String) : Outcome :=
  let req := newRequest dateStr
  match findRoute app.routes method path with
  | some (r, args) =>
    let p := protect app.log stack r.handler req args
    match p.err with
    | none => { req := p.req, logs := p.logs, panicked := none }
    | some _ =>
      let rr := Reply app.log p.req 500 "Internal server error"
      { req := rr.req, logs := p.logs ++ rr.logs, panicked := rr.panicked }
  | none =>
    let rr := Reply app.log req 404 "<h1>Not found</h1>"
    match rr.panicked with
    | some v => { req := rr.req, logs := rr.logs, panicked := some v }
    | none =>
      if app.logHits then
        let h := logHit app.log rr.req remoteAddr method path proto
        { req := rr.req, logs := rr.logs ++ h.writes, panicked := none }
      else { req := rr.req, logs := rr.logs, panicked := none }

/-- The dispatch scan selects the first matching route: from any matching
index, there is a least matching index and `findRoute` returns exactly
that route with its captured arguments. -/
theorem findRoute_first (m path : String) :
    ∀ (rs : List Route) (i : Nat) (hi : i < rs.length),
    routeMatches m (rs.get ⟨i, hi⟩) path = true →
    ∃ k, ∃ hk : k < rs.length, k ≤ i ∧
      routeMatches m (rs.get ⟨k, hk⟩) path = true ∧
      (∀ l (hl : l < rs.length), l < k →
        routeMatches m (rs.get ⟨l, hl⟩) path = false) ∧
      findRoute rs m path =
        some (rs.get ⟨k, hk⟩, argsOf (rs.get ⟨k, hk⟩) path) := by
  intro rs
  induction rs with
  | nil => intro i hi; simp at hi
  | cons r rest ih =>
    intro i hi hm
    by_cases h0 : routeMatches m r path = true
    · refine ⟨0, by simp, Nat.zero_le i, by simpa using h0, ?_, by simp [findRoute, h0]⟩
      intro l hl hlk
      omega
    · have h0f : routeMatches m r path = false := by
        cases hr : routeMatches m r path
        · rfl
        · exact absurd hr h0
      match i with
      | 0 =>
        exfalso
        exact h0 (by simpa using hm)
      | Nat.succ i' =>
        have hi' : i' < rest.length := by simpa using Nat.lt_of_succ_lt_succ hi
        have hm' : routeMatches m (rest.get ⟨i', hi'⟩) path = true := by
          simpa using hm
        obtain ⟨k, hk, hki, hkm, hleast, hfind⟩ := ih i' hi' hm'
        refine ⟨k + 1, by simpa using Nat.succ_lt_succ hk,
          Nat.succ_le_succ hki, by simpa using hkm, ?_, ?_⟩
        · intro l hl hlk
          match l with
          | 0 => simpa using h0f
          | Nat.succ l' =>
            have hl' : l' < rest.length := by simpa using Nat.lt_of_succ_lt_succ hl
            have hl'k : l' < k := Nat.lt_of_succ_lt_succ hlk
            simpa using hleast l' hl' hl'k
        · simp only [findRoute, h0f, Bool.false_eq_true, if_false]
          simpa using hfind

/-- Claim C3: if two registered routes both match an exchange and the first
was registered earlier, dispatch selects a route registered no later than
the first one — the table is scanned in registration order and the first
matching route (the least matching index) wins, so the later route is
never selected. -/
theorem dispatch_first_match (rs : List Route) (m path : String) (i j : Nat)
    (hi : i < rs.length) (hj : j < rs.length) (hij : i < j)
    (hmi : routeMatches m (rs.get ⟨i, hi⟩) path = true)
    (hmj : routeMatches m (rs.get ⟨j, hj⟩) path = true) :
    ∃ k, ∃ hk : k < rs.length, k ≤ i ∧ k < j ∧
      routeMatches m (rs.get ⟨k, hk⟩) path = true ∧
      (∀ l (hl : l < rs.length), l < k →
        routeMatches m (rs.get ⟨l, hl⟩) path = false) ∧
      findRoute rs m path =
        some (rs.get ⟨k, hk⟩, argsOf (rs.get ⟨k, hk⟩) path) := by
  obtain ⟨k, hk, hki, hkm, hleast, hfind⟩ := findRoute_first m path rs i hi hmi
  exact ⟨k, hk, hki, by omega, hkm, hleast, hfind⟩

/-- A matcher that matches every path, capturing nothing (like `".*"`). -/
def anyRe : String → Option (List String) := fun s => some [s]

def handlerA : Handler := fun _ => [.ok "A"]

def handlerB : Handler := fun _ => [.ok "B"]

def routeA : Route := ⟨".*", anyRe, "GET", handlerA⟩

def routeB : Route := ⟨".*", anyRe, "GET", handlerB⟩

/-- Witness for C3: two GET routes both matching `/x`; the first wins. -/
theorem dispatch_first_match_witness :
    ∃ k, ∃ hk : k < [routeA, routeB].length, k ≤ 0 ∧ k < 1 ∧
      routeMatches "GET" ([routeA, routeB].get ⟨k, hk⟩) "/x" = true ∧
      (∀ l (hl : l < [routeA, routeB].length), l < k →
        routeMatches "GET" ([routeA, routeB].get ⟨l, hl⟩) "/x" = false) ∧
      findRoute [routeA, routeB] "GET" "/x" =
        some ([routeA, routeB].get ⟨k, hk⟩,
              argsOf ([routeA, routeB].get ⟨k, hk⟩) "/x") :=
  dispatch_first_match [routeA, routeB] "GET" "/x" 0 1
    (by decide) (by decide) (by decide) (by rfl) (by rfl)

/-- Claim C4: a route matches an exchange exactly when its pattern matches
the path and either the methods are equal or the exchange's method is HEAD
while the route's is GET — HEAD is satisfied by GET routes, and no other
method combination matches without equality. -/
theorem route_method_rule (m : String) (r : Route) (path : String) :
    routeMatches m r path = true ↔
      ((m = r.method ∨ (m = "HEAD" ∧ r.method = "GET")) ∧
        (r.re path).isSome = true) := by
  simp [routeMatches, Bool.and_eq_true, Bool.or_eq_true, beq_iff_eq]

theorem Reply_logs_critical (log : Logger) (req : Request) (s : Int) (b : String) :
    ∀ e ∈ (Reply log req s b).logs, e.lvl = CRITICAL := by
  intro e he
  by_cases h : req.replied = true
  · simp only [Reply, if_pos h, Logger.criticalStr, Logger.logf] at he
    by_cases hc : CRITICAL < log.level
    · simp [if_pos hc] at he
    · simp [if_neg hc] at he
      rw [he]
  · simp [Reply, if_neg h] at he

theorem runStep_logs_critical (log : Logger) (a : HAction) (req : Request) :
    ∀ e ∈ (runStep log a req).logs, e.lvl = CRITICAL := by
  cases a with
  | reply s b => exact Reply_logs_critical log req s b
  | ok b => exact Reply_logs_critical log req 200 b
  | notFound b => exact Reply_logs_critical log req 404 b
  | setHeader n v => simp [runStep]
  | addHeader n v => simp [runStep]
  | doPanic m => simp [runStep]

theorem runStep_replied_mono (log : Logger) (a : HAction) (req : Request)
    (h : req.replied = true) : (runStep log a req).req.replied = true := by
  cases a <;> simp [runStep, Reply, h]

theorem runActions_replied_mono (log : Logger) (acts : List HAction) :
    ∀ req : Request, req.replied = true →
    (runActions log acts req).req.replied = true := by
  induction acts with
  | nil => intro req h; simpa [runActions] using h
  | cons a rest ih =>
    intro req h
    simp only [runActions]
    cases hp : (runStep log a req).panicked with
    | some v => simpa using runStep_replied_mono log a req h
    | none => simpa using ih _ (runStep_replied_mono log a req h)

theorem runActions_logs_critical (log : Logger) (acts : List HAction) :
    ∀ req : Request, ∀ e ∈ (runActions log acts req).logs, e.lvl = CRITICAL := by
  induction acts with
  | nil => intro req e he; simp [runActions] at he
  | cons a rest ih =>
    intro req e he
    simp only [runActions] at he
    cases hp : (runStep log a req).panicked with
    | some v =>
      rw [hp] at he
      exact runStep_logs_critical log a req e (by simpa using he)
    | none =>
      rw [hp] at he
      simp only [List.mem_append] at he
      rcases (by simpa using he) with h | h
      · exact runStep_logs_critical log a req e h
      · exact ih _ e h

theorem runStep_silent (log : Logger) (a : HAction) (req : Request)
    (hrep : req.replied = false)
    (hfin : (runStep log a req).req.replied = false) :
    (runStep log a req).logs = [] ∧
    (runStep log a req).req.wroteStatus = req.wroteStatus ∧
    (runStep log a req).req.wroteBody = req.wroteBody := by
  cases a with
  | reply s b => exfalso; simp [runStep, Reply, hrep] at hfin
  | ok b => exfalso; simp [runStep, Reply, hrep] at hfin
  | notFound b => exfalso; simp [runStep, Reply, hrep] at hfin
  | setHeader n v => simp [runStep]
  | addHeader n v => simp [runStep]
  | doPanic m => simp [runStep]

/-- A handler run that never completed a reply (the final state is still
unreplied) wrote no log entries and touched neither the status line nor
the body of the underlying exchange. -/
theorem runActions_silent (log : Logger) (acts : List HAction) :
    ∀ req : Request, req.replied = false →
    (runActions log acts req).req.replied = false →
    (runActions log acts req).logs = [] ∧
    (runActions log acts req).req.wroteStatus = req.wroteStatus ∧
    (runActions log acts req).req.wroteBody = req.wroteBody := by
  induction acts with
  | nil => intro req _ _; simp [runActions]
  | cons a rest ih =>
    intro req hrep hfin
    simp only [runActions] at hfin ⊢
    cases hp : (runStep log a req).panicked with
    | some v =>
      rw [hp] at hfin
      simp only at hfin
      obtain ⟨s1, s2, s3⟩ := runStep_silent log a req hrep hfin
      simp [s1, s2, s3]
    | none =>
      rw [hp] at hfin
      simp only at hfin
      have hstep : (runStep log a req).req.replied = false := by
        cases hsr : (runStep log a req).req.replied
        · rfl
        · exact absurd (runActions_replied_mono log rest _ hsr) (by simp [hfin])
      obtain ⟨s1, s2, s3⟩ := runStep_silent log a req hrep hstep
      obtain ⟨i1, i2, i3⟩ := ih (runStep log a req).req hstep hfin
      simp [s1, i1, i2.trans s2, i3.trans s3]

theorem Reply_normal_parts (log : Logger) (req : Request) (s : Int) (b : String)
    (hrep : req.replied = false) :
    (Reply log req s b).panicked = none ∧
    (Reply log req s b).logs = [] ∧
    (Reply log req s b).req.wroteStatus = req.wroteStatus ++ [s] ∧
    (Reply log req s b).req.wroteBody =
      req.wroteBody ++ (if b.utf8ByteSize > 0 then [b] else []) := by
  simp [Reply, hrep]

def panicAfterReplyRoute : Route :=
  ⟨".*", anyRe, "GET", fun _ => [.reply 200 "x", .doPanic "boom"]⟩

def panicApp : App :=
  { log := { level := TRACE, callDepth := 2 }, logHits := true,
    routes := [panicAfterReplyRoute] }

/-- Counterexample to C1 as stated: a registered route whose handler
replies 200 and then panics.  The boundary recovers and logs the fault,
but the dispatcher's 500 reply then trips the double-reply CRITICAL panic:
the only status line written is the handler's 200 — no 500 response is
produced — and a fault propagates past the dispatch call. -/
theorem handler_panic_counterexample :
    (ServeHTTP panicApp [("app.go", 7)] "GET" "/x" "HTTP/1.1" "1.2.3.4:5" "D").req.wroteStatus
        = [200] ∧
    (ServeHTTP panicApp [("app.go", 7)] "GET" "/x" "HTTP/1.1" "1.2.3.4:5" "D").panicked
        = some "this context has already been replied to!" := by
  decide

/-- Claim C1 (amended): for a matching route whose handler panics while
the exchange is still unreplied, and an ERROR-emitting log level, the
dispatcher intercepts the fault (nothing propagates past the dispatch
call), writes exactly one log entry — an ERROR entry whose message carries
the fault description and the recovered stack frames, at least one when
the runtime supplies any — and completes the exchange with exactly one
500-status response whose body is exactly "Internal server error".  (If
the handler had already replied before panicking, the 500 reply instead
trips the double-reply CRITICAL panic, see the counterexample.) -/
theorem handler_panic_isolated (app : App) (stack : List (String × Nat))
    (m path proto ra d : String) (r : Route) (args : List String) (v f : String)
    (ln : Nat) (rest : List (String × Nat))
    (hfind : findRoute app.routes m path = some (r, args))
    (hpanic : (runActions app.log (r.handler args) (newRequest d)).panicked = some v)
    (hnorep : (runActions app.log (r.handler args) (newRequest d)).req.replied = false)
    (hlvl : app.log.level ≤ ERROR)
    (hstack : stack = (f, ln) :: rest) :
    (ServeHTTP app stack m path proto ra d).panicked = none ∧
    (ServeHTTP app stack m path proto ra d).req.wroteStatus = [500] ∧
    (ServeHTTP app stack m path proto ra d).req.wroteBody
        = ["Internal server error"] ∧
    (ServeHTTP app stack m path proto ra d).logs
        = [{ lvl := ERROR, msg := crashBuf v stack }] ∧
    (∃ post, crashBuf v stack = ("handler crashed: " ++ v) ++ post) ∧
    (∃ pre post, crashBuf v stack = pre ++ frameLine (f, ln) ++ post) := by
  have hlt : ¬(ERROR < app.log.level) := not_lt.mpr hlvl
  obtain ⟨s1, s2, s3⟩ :=
    runActions_silent app.log (r.handler args) (newRequest d) rfl hnorep
  obtain ⟨p1, p2, p3, p4⟩ :=
    Reply_normal_parts app.log
      (runActions app.log (r.handler args) (newRequest d)).req
      500 "Internal server error" hnorep
  refine ⟨?_, ?_, ?_, ?_, ?_, ?_⟩
  · simp only [ServeHTTP, protect, hfind, hpanic]
    exact p1
  · simp only [ServeHTTP, protect, hfind, hpanic]
    rw [p3, s2]
    simp [newRequest]
  · simp only [ServeHTTP, protect, hfind, hpanic]
    rw [p4, s3, if_pos (by decide : "Internal server error".utf8ByteSize > 0)]
    simp [newRequest]
  · simp only [ServeHTTP, protect, hfind, hpanic]
    rw [p2, s1]
    simp [Logger.logf, hlt]
  · exact ⟨"\n" ++ concatFrames stack, by simp [crashBuf, String.append_assoc]⟩
  · refine ⟨"handler crashed: " ++ v ++ "\n", concatFrames rest, ?_⟩
    simp [crashBuf, hstack, concatFrames, String.append_assoc]

def panicRoute : Route := ⟨".*", anyRe, "GET", fun _ => [.doPanic "boom"]⟩

def panicOnlyApp : App :=
  { log := { level := TRACE, callDepth := 2 }, logHits := true,
    routes := [panicRoute] }

/-- Witness for amended C1: a handler that panics before replying, with
one recovered stack frame. -/
theorem handler_panic_isolated_witness :
    (ServeHTTP panicOnlyApp [("app.go", 7)] "GET" "/x" "HTTP/1.1" "ra" "D").panicked
        = none ∧
    (ServeHTTP panicOnlyApp [("app.go", 7)] "GET" "/x" "HTTP/1.1" "ra" "D").req.wroteStatus
        = [500] ∧
    (ServeHTTP panicOnlyApp [("app.go", 7)] "GET" "/x" "HTTP/1.1" "ra" "D").req.wroteBody
        = ["Internal server error"] ∧
    (ServeHTTP panicOnlyApp [("app.go", 7)] "GET" "/x" "HTTP/1.1" "ra" "D").logs
        = [{ lvl := ERROR, msg := crashBuf "boom" [("app.go", 7)] }] ∧
    (∃ post, crashBuf "boom" [("app.go", 7)] = ("handler crashed: " ++ "boom") ++ post) ∧
    (∃ pre post, crashBuf "boom" [("app.go", 7)] = pre ++ frameLine ("app.go", 7) ++ post) :=
  handler_panic_isolated panicOnlyApp [("app.go", 7)] "GET" "/x" "HTTP/1.1" "ra" "D"
    panicRoute [] "boom" "app.go" 7 []
    (by rfl) (by rfl) (by rfl) (by decide) rfl

theorem logf_writes_lvl (log : Logger) (lvl : Level) (fmt : String)
    (args : List String) :
    ∀ e ∈ (log.logf lvl fmt args).writes, e.lvl = lvl := by
  intro e he
  simp only [Logger.logf] at he
  split_ifs at he <;> simp_all

theorem protect_logs_no_info (log : Logger) (stack : List (String × Nat))
    (h : Handler) (req : Request) (args : List String) :
    ∀ e ∈ (protect log stack h req args).logs, ¬ e.lvl = INFO := by
  intro e he
  simp only [protect] at he
  cases hp : (runActions log (h args) req).panicked with
  | none =>
    rw [hp] at he
    simp only at he
    have hc := runActions_logs_critical log (h args) req e (by simpa using he)
    rw [hc]; decide
  | some v =>
    rw [hp] at he
    simp only at he
    rcases (by simpa using he :
        e ∈ (runActions log (h args) req).logs ∨
        e ∈ (log.logf ERROR (crashBuf v stack) []).writes) with h1 | h1
    · have hc := runActions_logs_critical log (h args) req e h1
      rw [hc]; decide
    · have hc := logf_writes_lvl log ERROR (crashBuf v stack) [] e h1
      rw [hc]; decide

/-- Number of hit-log entries in a trace: the entries at INFO level (the
level `logHit` writes at; no other embedded call site logs at INFO). -/
def countHits (logs : List LogEntry) : Nat :=
  (logs.filter (fun e => e.lvl == INFO)).length

theorem countHits_eq_zero (logs : List LogEntry)
    (h : ∀ e ∈ logs, ¬ e.lvl = INFO) : countHits logs = 0 := by
  simp only [countHits, List.length_eq_zero, List.filter_eq_nil_iff]
  intro e he
  simpa using h e he

/-- Claim C8 (amended): the hit-logging call runs exactly once for
exchanges that match no route (when hit-logging is enabled and the level
admits INFO), after the 404 fallback reply; exchanges that matched a route
return from the dispatch loop before the hit-logging step and produce no
hit-log entry at all. -/
theorem hit_logging (app : App) (stack : List (String × Nat))
    (m path proto ra d : String) :
    (findRoute app.routes m path = none → app.logHits = true →
      app.log.level ≤ INFO →
      countHits (ServeHTTP app stack m path proto ra d).logs = 1) ∧
    (∀ r args, findRoute app.routes m path = some (r, args) →
      countHits (ServeHTTP app stack m path proto ra d).logs = 0) := by
  constructor
  · intro hnone hhits hlvl
    have hlt : ¬(INFO < app.log.level) := not_lt.mpr hlvl
    simp [ServeHTTP, hnone, Reply, newRequest, hhits, logHit, Logger.logf, hlt,
      countHits]
  · intro r args hsome
    apply countHits_eq_zero
    intro e he
    simp only [ServeHTTP, hsome] at he
    cases hp : (protect app.log stack r.handler (newRequest d) args).err with
    | none =>
      rw [hp] at he
      simp only at he
      exact protect_logs_no_info app.log stack r.handler (newRequest d) args e
        (by simpa using he)
    | some v =>
      rw [hp] at he
      simp only at he
      rcases (by simpa using he :
          e ∈ (protect app.log stack r.handler (newRequest d) args).logs ∨
          e ∈ (Reply app.log (protect app.log stack r.handler (newRequest d) args).req
                 500 "Internal server error").logs) with h1 | h1
      · exact protect_logs_no_info app.log stack r.handler (newRequest d) args e h1
      · have hc := Reply_logs_critical app.log
          (protect app.log stack r.handler (newRequest d) args).req
          500 "Internal server error" e h1
        rw [hc]; decide

/-- `regexp.Compile("/post/(\d+)")` as a matcher: leftmost occurrence of
`/post/` followed by at least one digit, the maximal digit run captured. -/
def takeDigits : List Char → List Char
  | [] => []
  | c :: cs => if c.isDigit then c :: takeDigits cs else []

def postScan : List Char → Option (List Char)
  | [] => none
  | c :: cs =>
    if (c :: cs).take 6 = "/post/".data then
      let d := takeDigits ((c :: cs).drop 6)
      if d.isEmpty then postScan cs else some d
    else postScan cs

def postRe (path : String) : Option (List String) :=
  (postScan path.data).map (fun d => ["/post/" ++ String.mk d, String.mk d])

/-- The spec scenario's route: GET `/post/(\d+)` replying `ok("post:" + args[0])`. -/
def okRoute : Route :=
  ⟨"/post/(\\d+)", postRe, "GET", fun args => [.ok ("post:" ++ args.getD 0 "")]⟩

def okApp : App :=
  { log := { level := TRACE, callDepth := 2 }, logHits := true, routes := [okRoute] }

/-- Counterexample to C8 as stated: with hit-logging enabled, an exchange
that matches a route produces no hit-log entry — the dispatch loop returns
before the hit-logging step, which only the no-match fallthrough reaches. -/
theorem hit_logging_counterexample :
    countHits (ServeHTTP okApp [] "GET" "/post/42" "HTTP/1.1" "ra" "D").logs = 0 ∧
    okApp.logHits = true := by decide

/-- Witness for amended C8: no-match exchange logs exactly one hit;
matched exchange logs none. -/
theorem hit_logging_witness :
    countHits (ServeHTTP okApp [] "GET" "/nope" "HTTP/1.1" "ra" "D").logs = 1 ∧
    countHits (ServeHTTP okApp [] "GET" "/post/42" "HTTP/1.1" "ra" "D").logs = 0 :=
  ⟨(hit_logging okApp [] "GET" "/nope" "HTTP/1.1" "ra" "D").1 rfl rfl (by decide),
   (hit_logging okApp [] "GET" "/post/42" "HTTP/1.1" "ra" "D").2 okRoute ["42"] rfl⟩

/-- Counterexample to C9 as stated: for HEAD `/post/42` the handler's 200
reply carries the 7-byte body "post:42", so this code does write body
bytes and does set a `Content-Length` header — beside "status 200", the
"zero body bytes" and "no Content-Length" parts of the claim fail. -/
theorem head_post42_counterexample :
    ¬((ServeHTTP okApp [] "HEAD" "/post/42" "HTTP/1.1" "ra" "D").req.wroteBody = [] ∧
      hGet (ServeHTTP okApp [] "HEAD" "/post/42" "HTTP/1.1" "ra" "D").req.headers
        "Content-Length" = none) := by decide

/-- Claim C9 (amended): a HEAD request to `/post/42` against the GET route
`/post/(\d+)` whose handler replies `ok("post:" + args[0])` yields exactly
one 200 reply; the handler's 7-byte body "post:42" is written to the
response writer and `Content-Length: 7` is set (the non-zero contentLength
path).  Suppressing the body of a HEAD response is the transport's doing,
outside this code. -/
theorem head_post42 :
    (ServeHTTP okApp [] "HEAD" "/post/42" "HTTP/1.1" "ra" "D").req.wroteStatus
        = [200] ∧
    (ServeHTTP okApp [] "HEAD" "/post/42" "HTTP/1.1" "ra" "D").req.wroteBody
        = ["post:42"] ∧
    (ServeHTTP okApp [] "HEAD" "/post/42" "HTTP/1.1" "ra" "D").req.contentLength = 7 ∧
    hGet (ServeHTTP okApp [] "HEAD" "/post/42" "HTTP/1.1" "ra" "D").req.headers
        "Content-Length" = some ["7"] ∧
    (ServeHTTP okApp [] "HEAD" "/post/42" "HTTP/1.1" "ra" "D").panicked = none := by
  decide

end Tumblerous
